import Mathlib

/-!
Shallow embedding of `src/sentry/api/endpoints/organization_releases.py`
(`OrganizationReleasesEndpoint.post`): idempotent release creation under a
named lock with bounded retry, per-project association linking with
duplicate-key tolerance, and activity (side-effect event) emission gated on
the stored release's `date_released`.

Request parsing/authentication (`serializer.is_valid()`), pagination and the
`commit_list` attachment are out of scope per the spec and are not modelled;
requests enter the model already parsed. Datetimes are modelled as `Nat`.
-/

namespace SentryReleases

/-- A pre-existing project row: `Project(id, organization, slug)`; referenced,
never created, by this endpoint. -/
structure Project where
  id : Nat
  organization_id : Nat
  slug : String
deriving DecidableEq

/-- A `Release` row: unique per `(organization_id, version)`, with the optional
fields set once at creation (`ref`, `url`, `owner`, `date_started`,
`date_released`). `date_released = none` means the release is not yet live. -/
structure Release where
  id : Nat
  organization_id : Nat
  version : String
  ref : Option String
  url : Option String
  owner : Option Nat
  date_started : Option Nat
  date_released : Option Nat
deriving DecidableEq

/-- The optional creation fields supplied by a request, passed to
`Release.objects.create(...)` on the create path. -/
structure ReleaseFields where
  ref : Option String
  url : Option String
  owner : Option Nat
  date_started : Option Nat
  date_released : Option Nat
deriving DecidableEq

/-- The database state the endpoint reads and writes: project rows,
release rows, `ReleaseProject` association pairs `(release_id, project_id)`,
and the id counter for new releases. -/
structure Store where
  projects : List Project
  releases : List Release
  releaseProjects : List (Nat × Nat)
  nextReleaseId : Nat
deriving DecidableEq

/-- Observable side effects of the activity loop: `Activity.objects.create`
(one side-effect event, carrying `ident = version` and
`datetime = release.date_released`) and `activity.send_notification()`. -/
inductive Event where
  | sideEffect (projectId : Nat) (version : String) (datetime : Nat)
  | notified (projectId : Nat)
deriving DecidableEq

/-- A parsed create request: `version`, requested project slugs, and the
optional fields (`ref`, `url`, `owner`, `dateStarted`, `dateReleased`). -/
structure Request where
  version : String
  projects : List String
  ref : Option String
  url : Option String
  owner : Option Nat
  dateStarted : Option Nat
  dateReleased : Option Nat
deriving DecidableEq

/-- Embeds `Release.objects.filter(organization_id=..., version=...).first()`:
the first release row matching the unique pair, if any. `Release.objects.get`
on the same pair behaves identically when at most one row matches. -/
def findRelease (s : Store) (org : Nat) (ver : String) : Option Release :=
  (s.releases.filter (fun r => r.organization_id == org && r.version == ver)).head?

/-- The release row built by `Release.objects.create(organization_id=...,
version=..., ref=..., url=..., owner=..., date_started=..., date_released=...)`. -/
def mkRelease (rid org : Nat) (ver : String) (f : ReleaseFields) : Release :=
  { id := rid, organization_id := org, version := ver, ref := f.ref, url := f.url,
    owner := f.owner, date_started := f.date_started, date_released := f.date_released }

/-- Inserting a fresh release row into the store. -/
def createRelease (s : Store) (org : Nat) (ver : String) (f : ReleaseFields) :
    Release × Store :=
  let r := mkRelease s.nextReleaseId org ver f
  (r, { s with releases := s.releases ++ [r], nextReleaseId := s.nextReleaseId + 1 })

/-- Result of the get-or-create critical section. -/
structure CritResult where
  release : Release
  created : Bool
  store : Store
deriving DecidableEq

/-- The body executed while the lock is held (source lines 128-142): re-check
existence with `Release.objects.get` (`DoesNotExist` when no row matches),
returning the found row with `created = False`, else `Release.objects.create`
with the supplied fields and `created = True`. -/
def criticalSection (org : Nat) (ver : String) (f : ReleaseFields) (s : Store) :
    CritResult :=
  match findRelease s org ver with
  | some r => ⟨r, false, s⟩
  | none =>
    let rs := createRelease s org ver f
    ⟨rs.1, true, rs.2⟩

/-- Outcome of one attempt of a retriable operation, as classified by the
retry policy: success, the lock being unavailable, or any other failure. -/
inductive OpResult (α : Type) where
  | ok (a : α)
  | lockUnavailable
  | otherFailure
deriving DecidableEq

/-- Overall outcome of running an operation under the retry policy. -/
inductive RetryOutcome (α : Type) where
  | ok (a : α)
  | lockTimeout
  | failed
deriving DecidableEq

/-- Modelled from the spec: `sentry.utils.retries.TimedRetryPolicy` (used at
source line 127 as `TimedRetryPolicy(10)(lock.acquire)`) is not under `src/`.
Per spec 4.2, the operation runs up to the given number of attempts, retrying
only on lock-unavailable failures; exhausting the attempts surfaces a lock
timeout, and any other failure propagates immediately without retry. The
first argument is the attempt index, the second the remaining attempts. -/
def withRetryAux {α : Type} (op : Nat → OpResult α) : Nat → Nat → RetryOutcome α
  | _, 0 => .lockTimeout
  | k, n + 1 =>
    match op k with
    | .ok a => .ok a
    | .lockUnavailable => withRetryAux op (k + 1) n
    | .otherFailure => .failed

/-- Modelled from the spec: bounded-retry wrapper, starting at attempt 0. -/
def withRetry {α : Type} (maxAttempts : Nat) (op : Nat → OpResult α) :
    RetryOutcome α :=
  withRetryAux op 0 maxAttempts

/-- Result of the full get-or-create step, recording whether (and under which
key) the lock was taken. `Release.get_lock_key(organization.id, version)` is
not under `src/`; modelled from the spec: the key uniquely encodes the
`(tenant, version)` pair. -/
inductive GocResult where
  | ok (release : Release) (created : Bool) (store : Store)
      (lockKey : Option (Nat × String))
  | lockTimeout (store : Store)
  | lockFailed (store : Store)
deriving DecidableEq

/-- Source lines 118-142: lock-free fast-path lookup (reading snapshot `s0`);
only on a miss, the lock keyed by `(organization.id, version)` is acquired via
`TimedRetryPolicy(10)`, and the critical section (re-check, then create) runs
on the store `s1` current at lock acquisition. Concurrent creators may have
changed the store between the two reads, which is why `s0` and `s1` are
distinct parameters; a single sequential call passes the same store twice. -/
def getOrCreateLocked (acquire : Nat → OpResult Unit) (org : Nat) (ver : String)
    (f : ReleaseFields) (s0 s1 : Store) : GocResult :=
  match findRelease s0 org ver with
  | some r => .ok r false s1 none
  | none =>
    match withRetry 10 acquire with
    | .lockTimeout => .lockTimeout s1
    | .failed => .lockFailed s1
    | .ok _ =>
      let c := criticalSection org ver f s1
      .ok c.release c.created c.store (some (org, ver))

/-- The lock-serialized critical sections of a batch of concurrent callers,
each supplying its own optional fields. This models the worst case in which
every caller's lock-free fast-path read missed (maximally stale snapshots), so
every caller enters the lock; the lock's mutual exclusion serializes the
critical sections in some order, modelled as a list. -/
def runCrits (org : Nat) (ver : String) (fs : List ReleaseFields) (s : Store) :
    List (Release × Bool) × Store :=
  match fs with
  | [] => ([], s)
  | f :: rest =>
    let c := criticalSection org ver f s
    let res := runCrits org ver rest c.store
    ((c.release, c.created) :: res.1, res.2)

/-- Source lines 110-111: the org's project rows whose slug is among the
requested slugs. -/
def resolvedProjects (s : Store) (org : Nat) (slugs : List String) : List Project :=
  s.projects.filter (fun p => p.organization_id == org && slugs.contains p.slug)

/-- Source line 112: the requested slugs that resolve to no project of the
organization. -/
def invalidSlugs (s : Store) (org : Nat) (slugs : List String) : List String :=
  slugs.filter (fun sl => !(resolvedProjects s org slugs).any (fun p => p.slug == sl))

/-- The fixed payload of the 400 response at source line 114. -/
def invalidProjectsMessage : String := "Invalid project slugs"

/-- Result of the linking loop under a possibly-failing insert: either the
newly linked projects with the updated store, or an escaped non-duplicate
insert failure together with the store at that point (each insert runs in its
own `transaction.atomic()`, so earlier successful inserts persist and the
failing insert leaves no row). -/
inductive LinkResult where
  | ok (newly : List Project) (s : Store)
  | error (s : Store)
deriving DecidableEq

/-- Source lines 144-152 with the insert's failure mode made explicit: for
each project, attempt `ReleaseProject.objects.create(project, release)` inside
its own transaction; `fail` says whether that insert raises a non-duplicate
failure (which propagates), a duplicate pair raises `IntegrityError` (caught
by `except IntegrityError: pass`, excluding the project from `new_projects`),
and otherwise the pair is inserted and the project recorded as newly linked. -/
def linkAllO (fail : Nat → Nat → Bool) (rid : Nat) (ps : List Project) (s : Store) :
    LinkResult :=
  match ps with
  | [] => .ok [] s
  | p :: rest =>
    if fail rid p.id then .error s
    else if (rid, p.id) ∈ s.releaseProjects then linkAllO fail rid rest s
    else
      let s' := { s with releaseProjects := s.releaseProjects ++ [(rid, p.id)] }
      match linkAllO fail rid rest s' with
      | .ok newly s'' => .ok (p :: newly) s''
      | .error s'' => .error s''

/-- Source lines 144-152 in the normal environment where the only insert
failure is the duplicate-key `IntegrityError`: the same loop, total. -/
def linkAll (rid : Nat) (ps : List Project) (s : Store) : List Project × Store :=
  match ps with
  | [] => ([], s)
  | p :: rest =>
    if (rid, p.id) ∈ s.releaseProjects then linkAll rid rest s
    else
      let s' := { s with releaseProjects := s.releaseProjects ++ [(rid, p.id)] }
      let res := linkAll rid rest s'
      (p :: res.1, res.2)

/-- Source lines 154-163 with `send_notification`'s failure mode made
explicit: for each newly linked project, create the activity row (the
side-effect event, timestamped with the release's `date_released` and carrying
the request version), then call `send_notification()`; `send` says whether
that call succeeds. A raised dispatch failure propagates out of the loop, so
the remaining projects are not processed; the boolean reports whether the
loop completed. -/
def runNotify (send : Nat → Bool) (ver : String) (d : Nat) (ps : List Project) :
    List Event × Bool :=
  match ps with
  | [] => ([], true)
  | p :: rest =>
    if send p.id then
      let res := runNotify send ver d rest
      (Event.sideEffect p.id ver d :: Event.notified p.id :: res.1, res.2)
    else
      ([Event.sideEffect p.id ver d], false)

/-- The caller-visible outcome of `post`: the 400 invalid-slugs response, a
failure escaping lock acquisition (retries exhausted, or a non-retriable
failure), a failure escaping notification dispatch, or the success response
carrying the release and the `created` flag. -/
inductive PostOutcome where
  | invalidProjects (payload : String)
  | lockTimeout
  | lockFailed
  | dispatchFailed
  | ok (release : Release) (created : Bool)
deriving DecidableEq

/-- HTTP status of each outcome: 400 at source line 114; 201 vs 208 at lines
169-176; uncaught failures surface as 500. -/
def responseStatus : PostOutcome → Nat
  | .invalidProjects _ => 400
  | .lockTimeout => 500
  | .lockFailed => 500
  | .dispatchFailed => 500
  | .ok _ true => 201
  | .ok _ false => 208

/-- Full observable result of one `post` call: outcome, final store, the lock
key taken (if any), the `new_projects` list, and the emitted events. -/
structure PostResult where
  outcome : PostOutcome
  store : Store
  lockKey : Option (Nat × String)
  newlyLinked : List Project
  events : List Event
deriving DecidableEq

/-- Source lines 105-178, `OrganizationReleasesEndpoint.post`, for an
already-parsed request: resolve the requested slugs and reject unknown ones
(lines 110-114), get-or-create the release (lines 118-142), link each
resolved project (lines 144-152), and, when the stored release is live, emit
one activity plus notification per newly linked project (lines 154-163).
`acquire` is the lock service's behaviour, `send` the dispatcher's. -/
def post (acquire : Nat → OpResult Unit) (send : Nat → Bool) (org : Nat)
    (req : Request) (s : Store) : PostResult :=
  if (invalidSlugs s org req.projects).isEmpty then
    let f : ReleaseFields :=
      { ref := req.ref, url := req.url, owner := req.owner,
        date_started := req.dateStarted, date_released := req.dateReleased }
    match getOrCreateLocked acquire org req.version f s s with
    | .lockTimeout s1 =>
      { outcome := .lockTimeout, store := s1, lockKey := some (org, req.version),
        newlyLinked := [], events := [] }
    | .lockFailed s1 =>
      { outcome := .lockFailed, store := s1, lockKey := some (org, req.version),
        newlyLinked := [], events := [] }
    | .ok r created s1 lk =>
      let linked := linkAll r.id (resolvedProjects s org req.projects) s1
      let notif : List Event × Bool :=
        match r.date_released with
        | some d => runNotify send req.version d linked.1
        | none => ([], true)
      if notif.2 then
        { outcome := .ok r created, store := linked.2, lockKey := lk,
          newlyLinked := linked.1, events := notif.1 }
      else
        { outcome := .dispatchFailed, store := linked.2, lockKey := lk,
          newlyLinked := linked.1, events := notif.1 }
  else
    { outcome := .invalidProjects invalidProjectsMessage, store := s,
      lockKey := none, newlyLinked := [], events := [] }

/-! Helper lemmas about the embedded operations. -/

/-- When the lookup finds a row, the critical section returns it unchanged. -/
theorem crit_found {org : Nat} {ver : String} {s : Store} {r : Release}
    (f : ReleaseFields) (h : findRelease s org ver = some r) :
    criticalSection org ver f s = ⟨r, false, s⟩ := by
  simp [criticalSection, h]

/-- A missing lookup means no row at all matches the pair. -/
theorem filter_eq_nil_of_findRelease_none {s : Store} {org : Nat} {ver : String}
    (h : findRelease s org ver = none) :
    s.releases.filter (fun r => r.organization_id == org && r.version == ver) = [] := by
  simpa [findRelease, List.head?_eq_none_iff] using h

/-- When the lookup misses, the critical section creates the row from the
supplied fields. -/
theorem crit_missing {org : Nat} {ver : String} {s : Store}
    (f : ReleaseFields) (h : findRelease s org ver = none) :
    criticalSection org ver f s =
      ⟨mkRelease s.nextReleaseId org ver f, true,
       { s with releases := s.releases ++ [mkRelease s.nextReleaseId org ver f],
                nextReleaseId := s.nextReleaseId + 1 }⟩ := by
  simp [criticalSection, h, createRelease]

/-- After the create path, exactly the created row matches the pair. -/
theorem filter_after_create {org : Nat} {ver : String} {s : Store}
    (f : ReleaseFields) (h : findRelease s org ver = none) :
    ((criticalSection org ver f s).store.releases.filter
        (fun r => r.organization_id == org && r.version == ver))
      = [mkRelease s.nextReleaseId org ver f] := by
  rw [crit_missing f h]
  simp [List.filter_append, filter_eq_nil_of_findRelease_none h, mkRelease]

/-- After the create path, the lookup finds the created row. -/
theorem findRelease_after_create {org : Nat} {ver : String} {s : Store}
    (f : ReleaseFields) (h : findRelease s org ver = none) :
    findRelease (criticalSection org ver f s).store org ver
      = some (mkRelease s.nextReleaseId org ver f) := by
  unfold findRelease
  rw [filter_after_create f h]
  rfl

/-- Once a row matching the pair exists, every further serialized critical
section returns that row with `created = false` and leaves the store alone. -/
theorem runCrits_found {org : Nat} {ver : String} {s : Store} {r : Release}
    (h : findRelease s org ver = some r) (fs : List ReleaseFields) :
    runCrits org ver fs s = (fs.map (fun _ => (r, false)), s) := by
  induction fs with
  | nil => simp [runCrits]
  | cons f rest ih => simp [runCrits, crit_found f h, ih]

/-- No `created = true` result among pure get-results. -/
theorem countP_map_const_false {α : Type} (r : Release) (l : List α) :
    ((l.map (fun _ => (r, false))).countP (fun rc => rc.2)) = 0 := by
  induction l with
  | nil => rfl
  | cons a l ih => simp [List.countP_cons, ih]

/-- The fast path short-circuits the whole locked step. -/
theorem goc_found {acquire : Nat → OpResult Unit} {org : Nat} {ver : String}
    {f : ReleaseFields} {s0 s1 : Store} {r : Release}
    (h : findRelease s0 org ver = some r) :
    getOrCreateLocked acquire org ver f s0 s1 = .ok r false s1 none := by
  simp [getOrCreateLocked, h]

/-- The linking loop never touches the release rows. -/
theorem linkAll_releases (rid : Nat) (ps : List Project) :
    ∀ s : Store, ((linkAll rid ps s).2).releases = s.releases := by
  induction ps with
  | nil => intro s; rfl
  | cons p rest ih =>
    intro s
    by_cases hc : (rid, p.id) ∈ s.releaseProjects
    · simp [linkAll, hc, ih]
    · simp [linkAll, hc, ih]

/-- When every dispatch succeeds, the loop emits exactly one side-effect event
followed by one notification per project, in order, and completes. -/
theorem runNotify_all_ok {send : Nat → Bool} (h : ∀ pid, send pid = true)
    (ver : String) (d : Nat) (ps : List Project) :
    runNotify send ver d ps =
      (ps.flatMap (fun p => [Event.sideEffect p.id ver d, Event.notified p.id]),
       true) := by
  induction ps with
  | nil => rfl
  | cons p rest ih => simp [runNotify, h p.id, ih]

/-- Characterization of the benign linking loop when the processed projects
have pairwise-distinct ids: the newly linked projects are exactly those not
already linked in the starting store, and exactly their pairs are appended. -/
theorem linkAll_char (rid : Nat) :
    ∀ (ps : List Project) (s : Store), (ps.map (fun p => p.id)).Nodup →
      linkAll rid ps s =
        (ps.filter (fun p => decide ((rid, p.id) ∉ s.releaseProjects)),
         { s with releaseProjects := s.releaseProjects ++
             ((ps.filter (fun p => decide ((rid, p.id) ∉ s.releaseProjects))).map
               (fun p => (rid, p.id))) }) := by
  intro ps
  induction ps with
  | nil => intro s _; simp [linkAll]
  | cons p rest ih =>
    intro s hnd
    rw [List.map_cons, List.nodup_cons] at hnd
    by_cases hc : (rid, p.id) ∈ s.releaseProjects
    · rw [show linkAll rid (p :: rest) s = linkAll rid rest s by simp [linkAll, hc],
        ih s hnd.2]
      simp [hc]
    · have hrest : ∀ q ∈ rest,
          (decide ((rid, q.id) ∉ s.releaseProjects ++ [(rid, p.id)]) : Bool)
            = decide ((rid, q.id) ∉ s.releaseProjects) := by
        intro q hq
        have hne : q.id ≠ p.id := by
          intro he
          exact hnd.1 (by simpa [he] using List.mem_map_of_mem (fun x => x.id) hq)
        simp [List.mem_append, hne]
      have hstep : linkAll rid (p :: rest) s =
          ((linkAll rid rest
              { s with releaseProjects := s.releaseProjects ++ [(rid, p.id)] }).1.cons p,
           (linkAll rid rest
              { s with releaseProjects := s.releaseProjects ++ [(rid, p.id)] }).2) := by
        simp [linkAll, hc]
      rw [hstep, ih _ hnd.2]
      rw [List.filter_congr hrest]
      simp [hc, List.append_assoc]

/-- A successful locked get-or-create step leaves the association rows
unchanged (it only ever appends a release row). -/
theorem goc_ok_releaseProjects {acquire : Nat → OpResult Unit} {org : Nat}
    {ver : String} {f : ReleaseFields} {s s1 : Store} {r : Release} {c : Bool}
    {lk : Option (Nat × String)}
    (h : getOrCreateLocked acquire org ver f s s = .ok r c s1 lk) :
    s1.releaseProjects = s.releaseProjects := by
  unfold getOrCreateLocked at h
  cases hf : findRelease s org ver with
  | some r' =>
    simp only [hf] at h
    cases h
    rfl
  | none =>
    simp only [hf] at h
    cases hw : withRetry 10 acquire with
    | ok a =>
      simp only [hw, crit_missing f hf] at h
      cases h
      rfl
    | lockTimeout => simp only [hw] at h; exact absurd h (by simp)
    | failed => simp only [hw] at h; exact absurd h (by simp)

/-! Concrete fixtures used by the witness theorems. -/

/-- A lock service that always grants the lock on the first attempt. -/
def acqOk : Nat → OpResult Unit := fun _ => .ok ()

/-- A dispatcher whose `send_notification` always succeeds. -/
def sendOk : Nat → Bool := fun _ => true

/-- A request with every optional field absent. -/
def f0 : ReleaseFields := ⟨none, none, none, none, none⟩

/-- An empty database. -/
def emptyStore : Store := ⟨[], [], [], 0⟩

/-- Project fixture with id 1. -/
def p1 : Project := ⟨1, 1, "p1"⟩

/-- Project fixture with id 2. -/
def p2 : Project := ⟨2, 1, "p2"⟩

/-- A database holding the two project fixtures and nothing else. -/
def storeP : Store := ⟨[p1, p2], [], [], 0⟩

/-! The claims. -/

/-- Claim C1: `getOrCreate` of a release follows exactly this algorithm: a
lock-free lookup by `(tenant, version)` first, returning any found release
with `created = false`; only on a miss is the lock keyed by
`(tenant, version)` acquired under the retry policy; existence is re-checked
inside the held lock, returning a found release with `created = false`; only
when that re-check also finds nothing is a release created from the supplied
fields and returned with `created = true`. -/
theorem c1_getOrCreate_algorithm (acquire : Nat → OpResult Unit) (org : Nat)
    (ver : String) (f : ReleaseFields) (s0 s1 : Store) :
    (∀ r, findRelease s0 org ver = some r →
      getOrCreateLocked acquire org ver f s0 s1 = .ok r false s1 none) ∧
    (findRelease s0 org ver = none → withRetry 10 acquire = .ok () →
      ((∀ r, findRelease s1 org ver = some r →
         getOrCreateLocked acquire org ver f s0 s1 =
           .ok r false s1 (some (org, ver))) ∧
       (findRelease s1 org ver = none →
         ∃ r, getOrCreateLocked acquire org ver f s0 s1 =
               .ok r true { s1 with releases := s1.releases ++ [r],
                                    nextReleaseId := s1.nextReleaseId + 1 }
                 (some (org, ver)) ∧
           r.organization_id = org ∧ r.version = ver ∧ r.ref = f.ref ∧
           r.url = f.url ∧ r.owner = f.owner ∧ r.date_started = f.date_started ∧
           r.date_released = f.date_released))) := by
  refine ⟨fun r h => goc_found h, fun h0 hacq => ⟨fun r h1 => ?_, fun h1 => ?_⟩⟩
  · simp [getOrCreateLocked, h0, hacq, crit_found f h1]
  · refine ⟨mkRelease s1.nextReleaseId org ver f, ?_, rfl, rfl, rfl, rfl, rfl,
      rfl, rfl⟩
    simp [getOrCreateLocked, h0, hacq, crit_missing f h1]

/-- Witness for C1: on an empty store the create branch runs, taking the lock
keyed by the pair and creating the release from the supplied fields. -/
theorem c1_witness :
    ∃ r, getOrCreateLocked acqOk 1 "v1" f0 emptyStore emptyStore =
        .ok r true { emptyStore with
                      releases := emptyStore.releases ++ [r],
                      nextReleaseId := emptyStore.nextReleaseId + 1 }
          (some (1, "v1")) ∧
      r.organization_id = 1 ∧ r.version = "v1" ∧ r.ref = f0.ref ∧
      r.url = f0.url ∧ r.owner = f0.owner ∧ r.date_started = f0.date_started ∧
      r.date_released = f0.date_released :=
  ((c1_getOrCreate_algorithm acqOk 1 "v1" f0 emptyStore emptyStore).2
    rfl rfl).2 rfl

/-- Claim C2: among lock-serialized concurrent callers racing to create the
same `(tenant, version)` from a store with no such release, exactly one caller
observes `created = true`, every caller obtains the same release instance, and
exactly one matching release row exists afterwards. -/
theorem c2_at_most_one_creation (org : Nat) (ver : String)
    (fs : List ReleaseFields) (s : Store) (h : findRelease s org ver = none)
    (hne : fs ≠ []) :
    ((runCrits org ver fs s).1.countP (fun rc => rc.2)) = 1 ∧
    ∃ r, (∀ rc ∈ (runCrits org ver fs s).1, rc.1 = r) ∧
      ((runCrits org ver fs s).2.releases.filter
        (fun x => x.organization_id == org && x.version == ver)) = [r] := by
  cases fs with
  | nil => exact absurd rfl hne
  | cons f rest =>
    have hrest := runCrits_found (findRelease_after_create f h) rest
    have key : runCrits org ver (f :: rest) s =
        ((mkRelease s.nextReleaseId org ver f, true) ::
           rest.map (fun _ => (mkRelease s.nextReleaseId org ver f, false)),
         (criticalSection org ver f s).store) := by
      simp only [runCrits, hrest]
      rw [crit_missing f h]
    rw [key]
    refine ⟨?_, mkRelease s.nextReleaseId org ver f, ?_, filter_after_create f h⟩
    · simp [List.countP_cons, countP_map_const_false]
    · intro rc hrc
      rcases List.mem_cons.mp hrc with hh | hm
      · rw [hh]
      · rcases List.mem_map.mp hm with ⟨a, _, ha⟩
        rw [← ha]

/-- Witness for C2: two callers racing on an empty store, the first of which
wins the creation; exactly one `created = true`, one row. -/
theorem c2_witness :
    ((runCrits 1 "v1" [f0, f0] emptyStore).1.countP (fun rc => rc.2)) = 1 ∧
    ∃ r, (∀ rc ∈ (runCrits 1 "v1" [f0, f0] emptyStore).1, rc.1 = r) ∧
      ((runCrits 1 "v1" [f0, f0] emptyStore).2.releases.filter
        (fun x => x.organization_id == 1 && x.version == "v1")) = [r] :=
  c2_at_most_one_creation 1 "v1" [f0, f0] emptyStore rfl (by simp)

/-- Claim C3: on a successful call with no dispatch failures, a null
`date_released` on the stored release yields no side-effect event at all,
regardless of linking activity; a non-null `date_released = d` yields exactly
one side-effect event per newly linked project of this call, timestamped `d`
and each followed by its downstream notification; and (for distinct project
ids) the newly linked list is exactly the resolved projects not already
linked before the call, so no other linked project receives an event. -/
theorem c3_events_gated_on_date_released (acquire : Nat → OpResult Unit)
    (send : Nat → Bool) (org : Nat) (req : Request) (s : Store) (r : Release)
    (c : Bool) (hsend : ∀ pid, send pid = true)
    (hok : (post acquire send org req s).outcome = .ok r c) :
    (r.date_released = none → (post acquire send org req s).events = []) ∧
    (∀ d, r.date_released = some d →
      (post acquire send org req s).events =
        (post acquire send org req s).newlyLinked.flatMap
          (fun p => [Event.sideEffect p.id req.version d, Event.notified p.id])) ∧
    (((resolvedProjects s org req.projects).map (fun p => p.id)).Nodup →
      (post acquire send org req s).newlyLinked =
        (resolvedProjects s org req.projects).filter
          (fun p => decide ((r.id, p.id) ∉ s.releaseProjects))) := by
  by_cases hv : (invalidSlugs s org req.projects).isEmpty
  · simp only [post, hv, if_true] at hok ⊢
    cases hg : getOrCreateLocked acquire org req.version
        ⟨req.ref, req.url, req.owner, req.dateStarted, req.dateReleased⟩ s s with
    | lockTimeout s1 => simp [hg] at hok
    | lockFailed s1 => simp [hg] at hok
    | ok r' c' s1 lk =>
      simp only [hg] at hok ⊢
      have hrp := goc_ok_releaseProjects hg
      cases hd : r'.date_released with
      | none =>
        simp only [hd] at hok ⊢
        simp at hok
        obtain ⟨h1, _⟩ := hok
        subst h1
        refine ⟨fun _ => rfl, fun d hdd => absurd hdd (by simp [hd]), fun hnd => ?_⟩
        show (linkAll r'.id (resolvedProjects s org req.projects) s1).1 = _
        simp only [linkAll_char r'.id _ s1 hnd, hrp]
      | some d0 =>
        simp only [hd, runNotify_all_ok hsend] at hok ⊢
        simp at hok
        obtain ⟨h1, _⟩ := hok
        subst h1
        refine ⟨fun hn => absurd hn (by simp [hd]), fun d hdd => ?_, fun hnd => ?_⟩
        · rw [hd] at hdd
          cases hdd
          rfl
        · show (linkAll r'.id (resolvedProjects s org req.projects) s1).1 = _
          simp only [linkAll_char r'.id _ s1 hnd, hrp]
  · simp only [post, if_neg hv] at hok
    simp at hok

/-- Witness for C3: creating a live release (with `date_released = 5`) and
linking project `p1` emits exactly its side-effect event followed by its
notification. -/
theorem c3_witness :
    ((⟨0, 1, "v1", none, none, none, none, some 5⟩ : Release).date_released = none →
      (post acqOk sendOk 1 ⟨"v1", ["p1"], none, none, none, none, some 5⟩
        storeP).events = []) ∧
    (∀ d, (⟨0, 1, "v1", none, none, none, none, some 5⟩ : Release).date_released
        = some d →
      (post acqOk sendOk 1 ⟨"v1", ["p1"], none, none, none, none, some 5⟩
        storeP).events =
        (post acqOk sendOk 1 ⟨"v1", ["p1"], none, none, none, none, some 5⟩
          storeP).newlyLinked.flatMap
          (fun p => [Event.sideEffect p.id "v1" d, Event.notified p.id])) ∧
    (((resolvedProjects storeP 1 ["p1"]).map (fun p => p.id)).Nodup →
      (post acqOk sendOk 1 ⟨"v1", ["p1"], none, none, none, none, some 5⟩
        storeP).newlyLinked =
        (resolvedProjects storeP 1 ["p1"]).filter
          (fun p => decide ((0, p.id) ∉ storeP.releaseProjects))) :=
  c3_events_gated_on_date_released acqOk sendOk 1
    ⟨"v1", ["p1"], none, none, none, none, some 5⟩ storeP
    ⟨0, 1, "v1", none, none, none, none, some 5⟩ true
    (fun _ => rfl) (by decide)

/-- When no insert raises a non-duplicate failure, the oracle-instrumented
loop agrees with the benign loop and succeeds. -/
theorem linkAllO_eq_linkAll (fail : Nat → Nat → Bool) (rid : Nat) :
    ∀ (ps : List Project) (s : Store), (∀ p ∈ ps, fail rid p.id = false) →
      linkAllO fail rid ps s = .ok (linkAll rid ps s).1 (linkAll rid ps s).2 := by
  intro ps
  induction ps with
  | nil => intro s _; rfl
  | cons p rest ih =>
    intro s h
    have hp := h p (List.mem_cons_self p rest)
    have hrest : ∀ q ∈ rest, fail rid q.id = false :=
      fun q hq => h q (List.mem_cons_of_mem p hq)
    by_cases hc : (rid, p.id) ∈ s.releaseProjects
    · simp [linkAllO, linkAll, hp, hc, ih _ hrest]
    · simp [linkAllO, linkAll, hp, hc, ih _ hrest]

/-- When the insert for `p` raises a non-duplicate failure and the earlier
inserts do not, the loop propagates the failure; the store keeps exactly the
effects of the earlier inserts (each ran in its own transaction), and the
failing insert leaves no row. -/
theorem linkAllO_error (fail : Nat → Nat → Bool) (rid : Nat) :
    ∀ (pre : List Project) (p : Project) (rest : List Project) (s : Store),
      fail rid p.id = true → (∀ q ∈ pre, fail rid q.id = false) →
      linkAllO fail rid (pre ++ p :: rest) s = .error (linkAll rid pre s).2 := by
  intro pre
  induction pre with
  | nil => intro p rest s hp _; simp [linkAllO, linkAll, hp]
  | cons q pre' ih =>
    intro p rest s hp hpre
    have hq := hpre q (List.mem_cons_self q pre')
    have hpre' : ∀ x ∈ pre', fail rid x.id = false :=
      fun x hx => hpre x (List.mem_cons_of_mem q hx)
    by_cases hc : (rid, q.id) ∈ s.releaseProjects
    · simp [linkAllO, linkAll, hq, hc, ih p rest _ hp hpre']
    · simp [linkAllO, linkAll, hq, hc, ih p rest _ hp hpre']

/-- Claim C4: `linkAll` attempts each association insert inside its own
isolated transaction boundary: with no non-duplicate failure, already-linked
pairs raise a swallowed duplicate-key failure and are excluded from the
returned newly linked list while exactly the remaining pairs are inserted;
and a non-duplicate failure on one insert propagates to the caller, with the
earlier independent inserts persisted and the failing insert rolled back. -/
theorem c4_linkAll_isolated (fail : Nat → Nat → Bool) (rid : Nat)
    (ps : List Project) (s : Store) :
    ((∀ p ∈ ps, fail rid p.id = false) → (ps.map (fun p => p.id)).Nodup →
      linkAllO fail rid ps s =
        .ok (ps.filter (fun p => decide ((rid, p.id) ∉ s.releaseProjects)))
          { s with releaseProjects := s.releaseProjects ++
              ((ps.filter (fun p => decide ((rid, p.id) ∉ s.releaseProjects))).map
                (fun p => (rid, p.id))) }) ∧
    (∀ pre p rest, ps = pre ++ p :: rest → fail rid p.id = true →
      (∀ q ∈ pre, fail rid q.id = false) → (pre.map (fun q => q.id)).Nodup →
      linkAllO fail rid ps s =
        .error { s with releaseProjects := s.releaseProjects ++
            ((pre.filter (fun q => decide ((rid, q.id) ∉ s.releaseProjects))).map
              (fun q => (rid, q.id))) }) := by
  constructor
  · intro h hnd
    rw [linkAllO_eq_linkAll fail rid ps s h, linkAll_char rid ps s hnd]
  · intro pre p rest hps hp hpre hnd
    subst hps
    rw [linkAllO_error fail rid pre p rest s hp hpre, linkAll_char rid pre s hnd]

/-- Witness for C4: with no external failure both fresh pairs are linked;
with a failure injected on project 2's insert, the failure propagates and
only project 1's insert persists. -/
theorem c4_witness :
    linkAllO (fun _ _ => false) 7 [p1, p2] storeP =
      .ok ([p1, p2].filter (fun p => decide ((7, p.id) ∉ storeP.releaseProjects)))
        { storeP with releaseProjects := storeP.releaseProjects ++
            (([p1, p2].filter
                (fun p => decide ((7, p.id) ∉ storeP.releaseProjects))).map
              (fun p => (7, p.id))) } ∧
    linkAllO (fun _ pid => pid == 2) 7 [p1, p2] storeP =
      .error { storeP with releaseProjects := storeP.releaseProjects ++
          (([p1].filter (fun q => decide ((7, q.id) ∉ storeP.releaseProjects))).map
            (fun q => (7, q.id))) } :=
  ⟨(c4_linkAll_isolated (fun _ _ => false) 7 [p1, p2] storeP).1
      (fun _ _ => rfl) (by decide),
   (c4_linkAll_isolated (fun _ pid => pid == 2) 7 [p1, p2] storeP).2
      [p1] p2 [] rfl (by decide) (by decide) (by decide)⟩

/-- Claim C5: lock acquisition is retried up to the bounded attempt count
(10, as at the call site): with the lock permanently held every attempt sees
it unavailable and the retries are exhausted into a lock-timeout failure that
surfaces to the caller, while any other failure on an attempt propagates
immediately from that attempt without retry. -/
theorem c5_retry_policy (op : Nat → OpResult Unit) :
    ((∀ k, op k = .lockUnavailable) → withRetry 10 op = .lockTimeout) ∧
    (∀ n k, op k = .otherFailure → withRetryAux op k (n + 1) = .failed) := by
  constructor
  · intro h
    have aux : ∀ n k, withRetryAux op k n = .lockTimeout := by
      intro n
      induction n with
      | zero => intro k; rfl
      | succ m ih => intro k; simp [withRetryAux, h k, ih]
    exact aux 10 0
  · intro n k h
    simp [withRetryAux, h]

/-- Witness for C5: a permanently held lock exhausts the 10 attempts into a
lock timeout; an attempt failing for another reason fails immediately even
with attempts remaining. -/
theorem c5_witness :
    withRetry 10 (fun _ => (OpResult.lockUnavailable : OpResult Unit))
      = .lockTimeout ∧
    withRetryAux (fun _ => (OpResult.otherFailure : OpResult Unit)) 0 1
      = .failed :=
  ⟨(c5_retry_policy (fun _ => .lockUnavailable)).1 (fun _ => rfl),
   (c5_retry_policy (fun _ => .otherFailure)).2 0 0 rfl⟩

/-- A request for version `v1` over project slug `p1`, all optional fields
absent. -/
def reqV : Request := ⟨"v1", ["p1"], none, none, none, none, none⟩

/-- The release row created by `reqV` on `storeP`. -/
def r1 : Release := ⟨0, 1, "v1", none, none, none, none, none⟩

/-- A database in which `r1` already exists (non-live) alongside the two
project fixtures. -/
def storeR : Store := ⟨[p1, p2], [r1], [], 1⟩

/-- Amended claim C6: if any requested sub-resource slug does not resolve for
the tenant, the call fails immediately with the caller-facing validation
failure carrying the fixed generic invalid-slugs payload (the unresolvable
slugs themselves are not reported back), and this failure occurs before any
side effect: no lock is touched, no release is created, and no association or
event is produced. -/
theorem c6_validation_precedes_side_effects (acquire : Nat → OpResult Unit)
    (send : Nat → Bool) (org : Nat) (req : Request) (s : Store)
    (h : (invalidSlugs s org req.projects).isEmpty = false) :
    post acquire send org req s =
      { outcome := .invalidProjects invalidProjectsMessage, store := s,
        lockKey := none, newlyLinked := [], events := [] } := by
  simp [post, h]

/-- Counterexample for C6 as stated: two calls whose unresolvable requested
slugs differ (`alpha` vs `beta`) produce the identical failure response
carrying the fixed payload, so the failure cannot report every unresolvable
requested slug. -/
theorem c6_counterexample :
    (post acqOk sendOk 1 ⟨"v1", ["alpha"], none, none, none, none, none⟩
        storeP).outcome = .invalidProjects invalidProjectsMessage ∧
    (post acqOk sendOk 1 ⟨"v1", ["beta"], none, none, none, none, none⟩
        storeP).outcome = .invalidProjects invalidProjectsMessage ∧
    (["alpha"] : List String) ≠ ["beta"] ∧
    post acqOk sendOk 1 ⟨"v1", ["alpha"], none, none, none, none, none⟩ storeP =
      post acqOk sendOk 1 ⟨"v1", ["beta"], none, none, none, none, none⟩ storeP := by
  refine ⟨?_, ?_, ?_, ?_⟩ <;> decide

/-- Witness for the amended C6: a request naming the unknown slug `alpha`
fails with the generic payload, leaving the store untouched, the lock
untaken, and nothing linked or emitted. -/
theorem c6_witness :
    post acqOk sendOk 1 ⟨"v1", ["alpha"], none, none, none, none, none⟩ storeP =
      { outcome := .invalidProjects invalidProjectsMessage, store := storeP,
        lockKey := none, newlyLinked := [], events := [] } :=
  c6_validation_precedes_side_effects acqOk sendOk 1
    ⟨"v1", ["alpha"], none, none, none, none, none⟩ storeP (by decide)

/-- Claim C7: a create call for a `(tenant, version)` whose release already
exists returns `created = false` with that same release and leaves the
release rows unchanged (no duplicate row), and the caller can distinguish the
already-existed outcome (status 208) from the newly-created outcome
(status 201). -/
theorem c7_repeat_returns_existing (acquire : Nat → OpResult Unit)
    (send : Nat → Bool) (org : Nat) (req : Request) (s : Store) (r : Release)
    (hsend : ∀ pid, send pid = true)
    (hr : findRelease s org req.version = some r)
    (hv : (invalidSlugs s org req.projects).isEmpty = true) :
    (post acquire send org req s).outcome = .ok r false ∧
    (post acquire send org req s).store.releases = s.releases ∧
    responseStatus (post acquire send org req s).outcome = 208 ∧
    responseStatus (.ok r true) = 201 := by
  have hgoc : getOrCreateLocked acquire org req.version
      ⟨req.ref, req.url, req.owner, req.dateStarted, req.dateReleased⟩ s s
        = .ok r false s none := goc_found hr
  simp only [post, hv, if_true, hgoc]
  cases hd : r.date_released with
  | none => simp [linkAll_releases, responseStatus]
  | some d => simp [runNotify_all_ok hsend, linkAll_releases, responseStatus]

/-- Witness for C7: running the identical `reqV` call twice from `storeP`,
the second call returns the release created by the first with status 208,
adding no release row; the first outcome would carry status 201. -/
theorem c7_witness :
    (post acqOk sendOk 1 reqV (post acqOk sendOk 1 reqV storeP).store).outcome
        = .ok r1 false ∧
    (post acqOk sendOk 1 reqV
        (post acqOk sendOk 1 reqV storeP).store).store.releases
      = (post acqOk sendOk 1 reqV storeP).store.releases ∧
    responseStatus (post acqOk sendOk 1 reqV
        (post acqOk sendOk 1 reqV storeP).store).outcome = 208 ∧
    responseStatus (.ok r1 true) = 201 :=
  c7_repeat_returns_existing acqOk sendOk 1 reqV
    (post acqOk sendOk 1 reqV storeP).store r1
    (fun _ => rfl) (by decide) (by decide)

/-- Claim C8: a call for a `(tenant, version)` whose release already exists
leaves every stored release row — in particular the existing release's
optional fields `ref`, `url`, `owner`, `date_started`, `date_released` —
exactly as the winning creator stored them; no later request overwrites
them. -/
theorem c8_existing_release_rows_unchanged (acquire : Nat → OpResult Unit)
    (send : Nat → Bool) (org : Nat) (req : Request) (s : Store) (r : Release)
    (hr : findRelease s org req.version = some r) :
    (post acquire send org req s).store.releases = s.releases := by
  by_cases hv : (invalidSlugs s org req.projects).isEmpty
  · have hgoc : getOrCreateLocked acquire org req.version
        ⟨req.ref, req.url, req.owner, req.dateStarted, req.dateReleased⟩ s s
          = .ok r false s none := goc_found hr
    simp only [post, hv, if_true, hgoc]
    split <;> simp [linkAll_releases]
  · simp [post, hv]

/-- Witness for C8: a repeat call with different optional fields against the
store already holding `r1` changes no release row. -/
theorem c8_witness :
    (post acqOk sendOk 1 ⟨"v1", ["p1"], some "sha", some "u", some 3, some 1,
        some 9⟩ storeR).store.releases = storeR.releases :=
  c8_existing_release_rows_unchanged acqOk sendOk 1
    ⟨"v1", ["p1"], some "sha", some "u", some 3, some 1, some 9⟩ storeR r1
    (by decide)

/-- Counterexample for C9 as stated: with the release live and projects 1 and
2 newly linked, a dispatch failure on project 1 leaves project 2 with no
side-effect event at all — the failure blocks the remaining emissions. -/
theorem c9_counterexample :
    runNotify (fun pid => pid != 1) "v1" 5 [p1, p2]
      = ([Event.sideEffect 1 "v1" 5], false) ∧
    Event.sideEffect 2 "v1" 5 ∉ (runNotify (fun pid => pid != 1) "v1" 5 [p1, p2]).1 := by
  decide

/-- Amended claim C9: dispatch over the newly linked sub-resources of a live
release is fail-fast, not best-effort: every sub-resource before the failing
one receives its side-effect event and notification, the failing one receives
its side-effect event and then the failure propagates, and the remaining
sub-resources receive no side-effect event. -/
theorem c9_dispatch_failfast (send : Nat → Bool) (ver : String) (d : Nat)
    (pre : List Project) (p : Project) (rest : List Project)
    (hpre : ∀ q ∈ pre, send q.id = true) (hp : send p.id = false) :
    runNotify send ver d (pre ++ p :: rest) =
      (pre.flatMap (fun q => [Event.sideEffect q.id ver d, Event.notified q.id])
        ++ [Event.sideEffect p.id ver d], false) := by
  induction pre with
  | nil => simp [runNotify, hp]
  | cons q pre' ih =>
    have hq := hpre q (List.mem_cons_self q pre')
    have hpre' : ∀ x ∈ pre', send x.id = true :=
      fun x hx => hpre x (List.mem_cons_of_mem q hx)
    simp [runNotify, hq, ih hpre']

/-- Witness for the amended C9: with the failure on project 2, project 1 gets
its event and notification, project 2 gets its event, and the loop aborts. -/
theorem c9_witness :
    runNotify (fun pid => pid != 2) "v1" 7 [p1, p2] =
      ([p1].flatMap (fun q => [Event.sideEffect q.id "v1" 7, Event.notified q.id])
        ++ [Event.sideEffect p2.id "v1" 7], false) :=
  c9_dispatch_failfast (fun pid => pid != 2) "v1" 7 [p1] p2 []
    (by decide) (by decide)

/-- Claim C10: when a release for the requested `(tenant, version)` already
exists, two otherwise-identical requests differing only in their optional
fields produce identical results — same stored state, same emitted events,
same outcome; in particular, supplying `dateReleased` for an existing
non-live release emits nothing, because emission is gated solely on the
stored release's `date_released`. -/
theorem c10_optional_fields_noninterference (acquire : Nat → OpResult Unit)
    (send : Nat → Bool) (org : Nat) (req1 req2 : Request) (s : Store)
    (r : Release) (hr : findRelease s org req1.version = some r)
    (hv : req1.version = req2.version) (hp : req1.projects = req2.projects) :
    post acquire send org req1 s = post acquire send org req2 s ∧
    (r.date_released = none → (post acquire send org req1 s).events = []) := by
  obtain ⟨v1, pj1, a1, a2, a3, a4, a5⟩ := req1
  obtain ⟨v2, pj2, b1, b2, b3, b4, b5⟩ := req2
  simp only at hv hp hr
  subst hv
  subst hp
  constructor
  · have hgoc1 : getOrCreateLocked acquire org v1 ⟨a1, a2, a3, a4, a5⟩ s s
        = .ok r false s none := goc_found hr
    have hgoc2 : getOrCreateLocked acquire org v1 ⟨b1, b2, b3, b4, b5⟩ s s
        = .ok r false s none := goc_found hr
    simp only [post, hgoc1, hgoc2]
  · intro hd
    by_cases hvv : (invalidSlugs s org pj1).isEmpty
    · have hgoc1 : getOrCreateLocked acquire org v1 ⟨a1, a2, a3, a4, a5⟩ s s
          = .ok r false s none := goc_found hr
      simp only [post, hvv, if_true, hgoc1, hd]
    · simp [post, hvv]

/-- Witness for C10: against the store already holding the non-live `r1`, the
plain request and one supplying `ref`, `url`, `owner`, dates and
`dateReleased` give identical results, and no event is emitted. -/
theorem c10_witness :
    post acqOk sendOk 1 reqV storeR =
      post acqOk sendOk 1 ⟨"v1", ["p1"], some "sha", some "u", some 3, some 1,
        some 9⟩ storeR ∧
    (post acqOk sendOk 1 reqV storeR).events = [] :=
  have h := c10_optional_fields_noninterference acqOk sendOk 1 reqV
    ⟨"v1", ["p1"], some "sha", some "u", some 3, some 1, some 9⟩ storeR r1
    (by decide) rfl rfl
  ⟨h.1, h.2 rfl⟩

end SentryReleases
